import Mathlib

/-!
Shallow embedding of the multi-method authentication orchestrator of the
magic-to-v0 server (src/src/middleware/auth.ts, api-key-auth.ts,
basic-auth.ts, oidc-auth.ts, src/src/utils/config.ts, and the Hono app
wiring in hono-server.ts).

Modelling conventions:
* JavaScript strings are modelled as byte sequences (`List Nat`), i.e. the
  UTF-8 encoding of the string.  All string literals of the source are
  ASCII, so `str` maps a Lean literal to its byte sequence.
* JavaScript truthiness of an optional string (`undefined`, `null` or the
  empty string are falsy) is `jsTruthy`.
* A thrown JavaScript error is an explicit `JsError` value; `Res` is the
  result of a computation that can throw.
* External collaborators (the `crypto` SHA-256 digest, the `jose` JWT
  verifier and the network `fetch` of the OIDC discovery document) are
  parameters of the embedding: the middleware code only consumes their
  results, so the theorems quantify over their behaviour.
-/

/-- Byte sequence (UTF-8) of an ASCII Lean string literal. -/
def str (s : String) : List Nat :=
  s.data.map Char.toNat

/-- JavaScript truthiness of an optional string value:
`undefined` and the empty string are falsy. -/
def jsTruthy : Option (List Nat) → Bool
  | none => false
  | some s => !s.isEmpty

/-- JavaScript `a || b` on optional strings (first operand if truthy). -/
def jsOrStr (a : Option (List Nat)) (b : List Nat) : List Nat :=
  if jsTruthy a then a.getD b else b

/-- The `method` field of `AuthContext` (types/index.ts). -/
inductive AuthMethod where
  | apiKey
  | oidc
  | basic
deriving DecidableEq, Repr

/-- The JWT payload fields consumed by the OIDC middleware
(`payload.sub || payload.email || payload.preferred_username`). -/
structure JWTPayload where
  sub : Option (List Nat)
  email : Option (List Nat)
  preferredUsername : Option (List Nat)
deriving DecidableEq, Repr

/-- `AuthContext` from types/index.ts. -/
structure AuthContext where
  method : AuthMethod
  user : Option (List Nat)
  claims : Option JWTPayload
deriving DecidableEq, Repr

/-- A thrown error: either an `AuthenticationError` (utils/errors.ts,
rendered as HTTP 401 by the app error handler) or a plain `Error`. -/
inductive JsError where
  | authenticationError : List Nat → JsError
  | genericError : List Nat → JsError
deriving DecidableEq, Repr

/-- Result of a computation that can throw a `JsError`. -/
inductive Res (α : Type) where
  | ok : α → Res α
  | err : JsError → Res α
deriving DecidableEq, Repr

/-- Modelled from the spec: utils/errors.ts is not among the sources. Per
spec section 6 and section 7 an authentication failure is rendered by the
surrounding HTTP layer as status 401, while a plain error is an internal
(5xx-class) failure; the Hono error handler in hono-server.ts renders an
`AppError` with its `statusCode` and any other error as 500. -/
def errorStatus : JsError → Nat
  | .authenticationError _ => 401
  | .genericError _ => 500

/-- An inbound request: header map and query-parameter map
(`c.req.header(...)` and `c.req.query(...)`). -/
structure Request where
  headers : List (List Nat × List Nat)
  query : List (List Nat × List Nat)
deriving DecidableEq, Repr

/-- `c.req.header(name)`. -/
def getHeader (req : Request) (name : List Nat) : Option (List Nat) :=
  req.headers.lookup name

/-- `c.req.query(name)`. -/
def getQuery (req : Request) (name : List Nat) : Option (List Nat) :=
  req.query.lookup name

/-- A single auth middleware, as invoked by the orchestrator with a no-op
`next`: it either throws, or sets the auth context and returns. -/
def Mw : Type :=
  Request → Res AuthContext

/-! ## API key middleware (api-key-auth.ts) -/

/-- `ApiKeyAuthConfig` from api-key-auth.ts. -/
structure ApiKeyAuthConfig where
  apiKeys : List (List Nat)
  headerName : Option (List Nat)
  queryParamName : Option (List Nat)

/-- The principal recorded on API-key success:
`api-key-${apiKey.substring(0, 8)}...`. -/
def apiKeyPrincipal (k : List Nat) : List Nat :=
  str "api-key-" ++ k.take 8 ++ str "..."

/-- `createApiKeyAuth` from api-key-auth.ts: candidate from the configured
header, else (JS falsiness) the configured query parameter; throws if no
candidate; succeeds iff the candidate is in the key list. -/
def createApiKeyAuth (cfg : ApiKeyAuthConfig) : Mw := fun req =>
  let headerName := jsOrStr cfg.headerName (str "x-api-key")
  let queryParamName := jsOrStr cfg.queryParamName (str "api_key")
  let apiKey0 := getHeader req headerName
  let apiKey1 := if jsTruthy apiKey0 then apiKey0 else getQuery req queryParamName
  if !jsTruthy apiKey1 then
    .err (.authenticationError
      (str "API key is required. Provide it via header or query parameter."))
  else
    let k := apiKey1.getD []
    if k ∈ cfg.apiKeys then
      .ok { method := .apiKey, user := some (apiKeyPrincipal k), claims := none }
    else
      .err (.authenticationError (str "Invalid API key"))

/-! ## Base64 (the `Buffer.from(payload, 'base64')` decode used by
basic-auth.ts, and the corresponding encoder used to state theorems about
well-formed `Authorization: Basic` headers).  The modelled decoder is the
strict RFC 4648 decoder; the lenient character-skipping of Node Buffer is
not modelled, and all theorems exercise it only on valid encodings. -/

/-- The base64 alphabet, as byte values. -/
def b64chars : List Nat :=
  str "ABCDEFGHIJKLMNOPQRSTUVWXYZabcdefghijklmnopqrstuvwxyz0123456789+/"

/-- Byte value of the base64 digit for a sextet. -/
def sextetToChar (n : Nat) : Nat :=
  b64chars.getD n 65

/-- Sextet value of a base64 digit byte, if it is one. -/
def charToSextet (c : Nat) : Option Nat :=
  if c ∈ b64chars then some (b64chars.indexOf c) else none

/-- Base64 encoding of a byte sequence ('=' is byte 61). -/
def b64encode : List Nat → List Nat
  | [] => []
  | [a] => [sextetToChar (a / 4), sextetToChar (a % 4 * 16), 61, 61]
  | [a, b] => [sextetToChar (a / 4), sextetToChar (a % 4 * 16 + b / 16),
      sextetToChar (b % 16 * 4), 61]
  | a :: b :: c :: rest =>
      sextetToChar (a / 4) :: sextetToChar (a % 4 * 16 + b / 16) ::
      sextetToChar (b % 16 * 4 + c / 64) :: sextetToChar (c % 64) ::
      b64encode rest

/-- Base64 decoding of a byte sequence ('=' is byte 61). -/
def b64decode : List Nat → Option (List Nat)
  | [] => some []
  | c1 :: c2 :: c3 :: c4 :: rest =>
      match charToSextet c1, charToSextet c2 with
      | some s1, some s2 =>
          if c3 = 61 ∧ c4 = 61 ∧ rest = [] then
            some [s1 * 4 + s2 / 16]
          else if c4 = 61 ∧ rest = [] then
            match charToSextet c3 with
            | some s3 => some [s1 * 4 + s2 / 16, s2 % 16 * 16 + s3 / 4]
            | none => none
          else
            match charToSextet c3, charToSextet c4, b64decode rest with
            | some s3, some s4, some bs =>
                some ((s1 * 4 + s2 / 16) :: (s2 % 16 * 16 + s3 / 4) ::
                  (s3 % 4 * 64 + s4) :: bs)
            | _, _, _ => none
      | _, _ => none
  | _ => none

/-! ## Basic middleware (basic-auth.ts) -/

/-- The bytes matched by `\s` of the JS regex used in `parseBasicAuth`
(the non-ASCII whitespace code points cannot occur in a byte model). -/
def isJsSpace (c : Nat) : Bool :=
  c = 32 || c = 9 || c = 10 || c = 11 || c = 12 || c = 13

/-- JS regex `.` does not match a line terminator. -/
def isLineTerm (c : Nat) : Bool :=
  c = 10 || c = 13

/-- ASCII lower-casing, for the case-insensitive `Basic` prefix match. -/
def toLowerByte (c : Nat) : Nat :=
  if 65 ≤ c ∧ c ≤ 90 then c + 32 else c

/-- The `\s+(.+)$` part of the regex of `parseBasicAuth`, applied to what
follows the `Basic` prefix: the capture is the remainder after the greedy
whitespace run when that remainder is non-empty and free of line
terminators; when everything after the prefix is whitespace and at least
two bytes long, the regex backtracks and captures the final whitespace
byte (if it is not a line terminator). -/
def basicCapture (tail : List Nat) : Option (List Nat) :=
  if (tail.takeWhile isJsSpace).isEmpty then none
  else if (tail.dropWhile isJsSpace).isEmpty then
    if 2 ≤ (tail.takeWhile isJsSpace).length ∧
        !isLineTerm ((tail.takeWhile isJsSpace).getLast!) then
      some [(tail.takeWhile isJsSpace).getLast!]
    else none
  else if (tail.dropWhile isJsSpace).any isLineTerm then none
  else some (tail.dropWhile isJsSpace)

/-- `parseBasicAuth` from basic-auth.ts: match `/^Basic\s+(.+)$/i` (a
case-insensitive `Basic` prefix, whitespace, then the captured payload),
base64-decode the payload, and split the decoded bytes at the first `:`
(byte 58); `none` on any failure. -/
def parseBasicAuth (hdr : List Nat) : Option (List Nat × List Nat) :=
  if 5 ≤ hdr.length ∧ (hdr.take 5).map toLowerByte = str "basic" then
    match basicCapture (hdr.drop 5) with
    | none => none
    | some payload =>
        match b64decode payload with
        | none => none
        | some decoded =>
            match decoded.indexOf? 58 with
            | none => none
            | some i => some (decoded.take i, decoded.drop (i + 1))
  else none

/-- `BasicAuthConfig` from basic-auth.ts (the `users` record as an
association list; the optional realm only affects a response header,
which is not modelled). -/
structure BasicAuthConfig where
  users : List (List Nat × List Nat)

/-- `createBasicAuth` from basic-auth.ts, parametrized by the SHA-256 hex
digest function `hashPassword` (the `crypto` library call, uninterpreted).
Header absent or empty, unparsable header, unknown user and wrong
password each throw; the latter two with the identical message. -/
def createBasicAuth (hashPassword : List Nat → List Nat)
    (cfg : BasicAuthConfig) : Mw := fun req =>
  if !jsTruthy (getHeader req (str "Authorization")) then
    .err (.authenticationError (str "Basic authentication required"))
  else
    match parseBasicAuth ((getHeader req (str "Authorization")).getD []) with
    | none => .err (.authenticationError (str "Invalid Basic authentication format"))
    | some (username, password) =>
        if !jsTruthy (cfg.users.lookup username) then
          .err (.authenticationError (str "Invalid username or password"))
        else if hashPassword password = (cfg.users.lookup username).getD [] then
          .ok { method := .basic, user := some username, claims := none }
        else
          .err (.authenticationError (str "Invalid username or password"))

/-! ## OIDC middleware (oidc-auth.ts) -/

/-- `OIDCConfig` from types/index.ts. -/
structure OIDCConfig where
  issuer : List Nat
  clientId : List Nat
  clientSecret : Option (List Nat)
  audience : Option (List Nat)
  jwksUri : Option (List Nat)

/-- Outcome of the `fetch` of `{issuer}/.well-known/openid-configuration`
plus its JSON parse: the fetch can reject, the response can be non-ok, the
body can fail to parse, or a document arrives whose `jwks_uri` field is
`ok`'s argument (absent field modelled as `none`). -/
inductive DiscoveryOutcome where
  | netError
  | badStatus
  | badJson
  | ok : Option (List Nat) → DiscoveryOutcome
deriving DecidableEq, Repr

/-- The external world the OIDC middleware interacts with: the discovery
endpoint and the `jose` `jwtVerify` call (given the JWKS URI the remote
key set was created from, the configured issuer and audience, and the
token; `none` means the library threw). -/
structure OidcWorld where
  discovery : DiscoveryOutcome
  verify : List Nat → List Nat → Option (List Nat) → List Nat → Option JWTPayload

/-- `OIDCAuth.discoverConfig`: any fetch/parse failure is caught and
re-thrown as the plain error `Failed to initialize OIDC authentication`;
on success `this.jwks` is set from the document only when the document has
a truthy `jwks_uri` and no `jwksUri` was configured.  Returns the new
value of `this.jwks`. -/
def discoverConfig (w : OidcWorld) (cfg : OIDCConfig)
    (jwks : Option (List Nat)) : Res (Option (List Nat)) :=
  match w.discovery with
  | .ok juri =>
      if jsTruthy juri ∧ !jsTruthy cfg.jwksUri then .ok juri else .ok jwks
  | _ => .err (.genericError (str "Failed to initialize OIDC authentication"))

/-- `OIDCAuth.extractBearerToken`. -/
def extractBearerToken (authHeader : Option (List Nat)) : Option (List Nat) :=
  match authHeader with
  | none => none
  | some h =>
      if (str "Bearer ").isPrefixOf h then some (h.drop 7) else none

/-- The JWKS state after the `if (!this.jwks)` block of
`OIDCAuth.verifyToken`: lazily run discovery, then fail with the plain
error `JWKS not configured` if still unset. -/
def resolveJwks (w : OidcWorld) (cfg : OIDCConfig)
    (jwks : Option (List Nat)) : Res (List Nat) :=
  match jwks with
  | some j => .ok j
  | none =>
      match discoverConfig w cfg none with
      | .err e => .err e
      | .ok jwks2 =>
          match jwks2 with
          | some j => .ok j
          | none => .err (.genericError (str "JWKS not configured"))

/-- `OIDCAuth.verifyToken`: resolve the key set, then `jwtVerify`; a
library failure becomes `AuthenticationError('Invalid or expired token')`.
Errors from `resolveJwks` propagate unwrapped (the try only surrounds the
`jwtVerify` call). -/
def verifyToken (w : OidcWorld) (cfg : OIDCConfig)
    (jwks : Option (List Nat)) (token : List Nat) : Res JWTPayload :=
  match resolveJwks w cfg jwks with
  | .err e => .err e
  | .ok j =>
      match w.verify j cfg.issuer cfg.audience token with
      | some payload => .ok payload
      | none => .err (.authenticationError (str "Invalid or expired token"))

/-- `payload.sub || payload.email || payload.preferred_username ||
'unknown'` (JS truthiness chain). -/
def claimUser (p : JWTPayload) : List Nat :=
  jsOrStr p.sub (jsOrStr p.email (jsOrStr p.preferredUsername (str "unknown")))

/-- `createOIDCAuth` / `OIDCAuth.middleware`: the initial `this.jwks` is
the configured `jwksUri` when truthy.  A missing or empty bearer token
throws; an `AuthenticationError` from verification is re-thrown as is; any
other error (the discovery failures included) is caught and wrapped into
`AuthenticationError('Authentication failed')`.  The model is the
behaviour from the freshly constructed instance state; the only mutation
(`this.jwks` after a successful discovery) does not occur in the
configured-`jwksUri` and failed-discovery situations the theorems are
about. -/
def createOIDCAuth (w : OidcWorld) (cfg : OIDCConfig) : Mw := fun req =>
  let jwks0 := if jsTruthy cfg.jwksUri then cfg.jwksUri else none
  let token := extractBearerToken (getHeader req (str "Authorization"))
  if !jsTruthy token then
    .err (.authenticationError (str "Bearer token required"))
  else
    match verifyToken w cfg jwks0 (token.getD []) with
    | .ok payload =>
        .ok { method := .oidc, user := some (claimUser payload),
              claims := some payload }
    | .err (.authenticationError m) => .err (.authenticationError m)
    | .err _ => .err (.authenticationError (str "Authentication failed"))

/-! ## Orchestrator (auth.ts) -/

/-- Result of running the composed middleware on a request, recording the
observable effects: final outcome, the auth variable, the collected
`errors` array, how many of the middlewares were invoked, and how many
times the downstream `next` was dispatched. -/
structure ComposeResult where
  outcome : Res Unit
  ctx : Option AuthContext
  errors : List JsError
  invoked : Nat
  nextCalls : Nat
deriving DecidableEq, Repr

/-- The `for (const middleware of middlewares)` loop of
`composeAuthMiddleware`: each middleware runs with a no-op `next`; both
the middleware call and the real `await next()` sit inside the `try`, so
an error from either is pushed onto `errors` and the loop continues.
`down n` is the behaviour of the downstream handler chain on its n-th
dispatch. -/
def composeLoop (down : Nat → Res Unit) (req : Request) (agg : JsError) :
    List Mw → Nat → Nat → Option AuthContext → List JsError → ComposeResult
  | [], inv, nc, ctx, errs => ⟨.err agg, ctx, errs, inv, nc⟩
  | mw :: rest, inv, nc, ctx, errs =>
      match mw req with
      | .err e => composeLoop down req agg rest (inv + 1) nc ctx (errs ++ [e])
      | .ok a =>
          match down nc with
          | .ok _ => ⟨.ok (), some a, errs, inv + 1, nc + 1⟩
          | .err e =>
              composeLoop down req agg rest (inv + 1) (nc + 1) (some a) (errs ++ [e])

/-- `list.join(', ')`. -/
def joinComma : List (List Nat) → List Nat
  | [] => []
  | [s] => s
  | s :: rest => s ++ str ", " ++ joinComma rest

/-- The message of the terminal error thrown when every method failed. -/
def aggregateError (methods : List (List Nat)) : JsError :=
  .authenticationError
    (str "Authentication failed. Supported methods: " ++ joinComma methods)

/-- `composeAuthMiddleware` from auth.ts. -/
def composeAuthMiddleware (methods : List (List Nat)) (mws : List Mw)
    (req : Request) (down : Nat → Res Unit) : ComposeResult :=
  composeLoop down req (aggregateError methods) mws 0 0 none []

/-- The `config.auth` object (types/index.ts). -/
structure AuthSettings where
  enabled : Bool
  methods : List (List Nat)
  apiKeys : Option (List (List Nat))
  oidc : Option OIDCConfig
  basicAuth : Option BasicAuthConfig

/-- The middleware list assembled by `createAuthMiddleware`, in its fixed
textual order: API key, then OIDC, then Basic, each guarded by the
membership test on `config.auth.methods` and the presence checks (a JS
array is truthy, so the API-key guard is membership plus non-emptiness;
the OIDC and Basic guards are membership plus object presence). -/
def buildMiddlewares (w : OidcWorld) (hashPassword : List Nat → List Nat)
    (auth : AuthSettings) : List Mw :=
  (if str "api-key" ∈ auth.methods then
     match auth.apiKeys with
     | some ks => if 0 < ks.length then [createApiKeyAuth ⟨ks, none, none⟩] else []
     | none => []
   else []) ++
  (if str "oidc" ∈ auth.methods then
     match auth.oidc with
     | some ocfg => [createOIDCAuth w ocfg]
     | none => []
   else []) ++
  (if str "basic" ∈ auth.methods then
     match auth.basicAuth with
     | some bcfg => [createBasicAuth hashPassword bcfg]
     | none => []
   else [])

/-- `createAuthMiddleware` from auth.ts: `null` when auth is disabled or
when no middleware was assembled; otherwise the composed middleware. -/
def createAuthMiddleware (w : OidcWorld) (hashPassword : List Nat → List Nat)
    (auth : AuthSettings) :
    Option (Request → (Nat → Res Unit) → ComposeResult) :=
  if !auth.enabled then none
  else
    let mws := buildMiddlewares w hashPassword auth
    if mws.isEmpty then none
    else some (composeAuthMiddleware auth.methods mws)

/-- The `/api/*` pipeline of `createApp` (hono-server.ts): the auth
middleware is installed only when `createAuthMiddleware` returned one;
otherwise the downstream handler chain runs directly, once, with no auth
context. -/
def apiGate (w : OidcWorld) (hashPassword : List Nat → List Nat)
    (auth : AuthSettings) (req : Request) (down : Nat → Res Unit) :
    ComposeResult :=
  match createAuthMiddleware w hashPassword auth with
  | none =>
      match down 0 with
      | .ok _ => ⟨.ok (), none, [], 0, 1⟩
      | .err e => ⟨.err e, none, [], 0, 1⟩
  | some m => m req down

/-! ## Configuration validation (utils/config.ts) -/

/-- The `config.uiProvider` object: the provider type and the presence of
the per-provider configuration objects. -/
structure UIProviderSettings where
  type : List Nat
  magic : Option Unit
  v0 : Option Unit

/-- The parts of `Config` that `validateConfig` inspects. -/
structure ConfigM where
  port : Int
  uiProvider : UIProviderSettings
  auth : AuthSettings

/-- JS truthiness of `config.auth.apiKeys && config.auth.apiKeys.length > 0`
(an array is truthy; the check is presence plus non-emptiness). -/
def apiKeysPresent : Option (List (List Nat)) → Bool
  | some ks => 0 < ks.length
  | none => false

/-- `validateConfig` from utils/config.ts: the list of error strings it
accumulates (it throws iff the list is non-empty). -/
def validateConfig (c : ConfigM) : List (List Nat) :=
  (if c.port < 1 ∨ 65535 < c.port then
    [str "Port must be between 1 and 65535"] else []) ++
  (if c.uiProvider.type = str "magic" ∧ c.uiProvider.magic.isNone then
    [str "Magic UI provider selected but not configured (missing API key)"]
   else []) ++
  (if c.uiProvider.type = str "v0" ∧ c.uiProvider.v0.isNone then
    [str "v0 provider selected but not configured (missing V0_API_KEY)"]
   else []) ++
  (if c.auth.enabled then
    (if c.auth.methods.length = 0 then
      [str "At least one authentication method must be enabled"] else []) ++
    (if str "api-key" ∈ c.auth.methods ∧ apiKeysPresent c.auth.apiKeys = false then
      [str "API key authentication enabled but no API keys configured"]
     else []) ++
    (if str "oidc" ∈ c.auth.methods ∧ c.auth.oidc.isNone then
      [str "OIDC authentication enabled but not configured"] else []) ++
    (if str "basic" ∈ c.auth.methods ∧ c.auth.basicAuth.isNone then
      [str "Basic authentication enabled but not configured"] else [])
   else [])

/-! ## Concurrent discovery (oidc-auth.ts, `verifyToken` + `discoverConfig`)

Node runs request handlers cooperatively: a task runs uninterrupted
between `await` points.  For a request whose `verifyToken` finds
`this.jwks` unset, the code runs `if (!this.jwks) { await
this.discoverConfig(); }`, and `discoverConfig` issues `await
fetch(wellKnownUrl)`; the null check and the issuing of the fetch happen
in one uninterrupted slice, and `this.jwks` is assigned only after the
response has been received and parsed.  Each task is therefore a three
state machine: `start` (about to run the null check), `fetching` (its own
fetch is in flight), `done`.  The shared state is whether `this.jwks` is
set and how many outbound discovery fetches were issued.  A schedule is
the list of task indices picked at each step. -/

/-- Per-request progress through the lazy-discovery path. -/
inductive TaskState where
  | start
  | fetching
  | done
deriving DecidableEq, Repr

/-- Shared process state for racing first-time OIDC requests. -/
structure RaceState where
  jwksSet : Bool
  fetches : Nat
  tasks : List TaskState
deriving DecidableEq, Repr

/-- One scheduler step: run task `i` to its next await point.
From `start`: if `this.jwks` is set the task skips discovery; otherwise it
enters `discoverConfig` and issues its fetch (one uninterrupted slice).
From `fetching`: its response arrives, the document is parsed and
`this.jwks` is assigned. -/
def raceStep (s : RaceState) (i : Nat) : RaceState :=
  match s.tasks[i]? with
  | none => s
  | some .start =>
      if s.jwksSet then { s with tasks := s.tasks.set i .done }
      else { s with tasks := s.tasks.set i .fetching, fetches := s.fetches + 1 }
  | some .fetching =>
      { s with tasks := s.tasks.set i .done, jwksSet := true }
  | some .done => s

/-- Run a schedule (list of task indices) from a state. -/
def runSchedule (s : RaceState) : List Nat → RaceState
  | [] => s
  | i :: rest => runSchedule (raceStep s i) rest

/-- N requests that have all reached `verifyToken` with nothing cached. -/
def raceInit (n : Nat) : RaceState :=
  ⟨false, 0, List.replicate n .start⟩

/-! ## Concrete instances used to evaluate the code on specific inputs -/

/-- A downstream handler chain that always succeeds. -/
def downOk : Nat → Res Unit := fun _ => .ok ()

/-- A downstream handler chain that throws on its first dispatch and
succeeds afterwards. -/
def downFailsOnce : Nat → Res Unit := fun n =>
  if n = 0 then .err (.genericError (str "boom")) else .ok ()

/-- A concrete stand-in for the SHA-256 hex digest (the theorems about
Basic auth quantify over the digest function; concrete instances use the
identity, so the stored hash of password `p` is `p` itself). -/
def hashId : List Nat → List Nat := fun p => p

/-- A world whose issuer serves a JWKS at a known URI and whose verifier
accepts exactly the token `tok`, for a subject `alice`. -/
def worldAcceptTok : OidcWorld :=
  ⟨.ok (some (str "https://iss/jwks")),
   fun _ _ _ token =>
     if token = str "tok" then some ⟨some (str "alice"), none, none⟩ else none⟩

/-- A world whose discovery fetch fails with a network error and whose
verifier rejects everything. -/
def worldNetDown : OidcWorld :=
  ⟨.netError, fun _ _ _ _ => none⟩

/-- Auth settings: OIDC listed before api-key in `methods`, both fully
configured (the OIDC settings carry an explicit `jwksUri`). -/
def authOidcFirst : AuthSettings :=
  ⟨true, [str "oidc", str "api-key"], some [str "secretkey123"],
   some ⟨str "https://iss", str "client", none, none, some (str "https://iss/jwks")⟩,
   none⟩

/-- A request carrying both a valid API key and a valid bearer token. -/
def reqBothCreds : Request :=
  ⟨[(str "x-api-key", str "secretkey123"),
    (str "Authorization", str "Bearer tok")], []⟩

/-- Auth settings with api-key and basic enabled (in that configured
order), keys `{k1}` and one Basic user `admin` whose stored digest is
`secret` (under `hashId`). -/
def authApiKeyBasic : AuthSettings :=
  ⟨true, [str "api-key", str "basic"], some [str "k1"], none,
   some ⟨[(str "admin", str "secret")]⟩⟩

/-- A request with no credentials of any kind. -/
def reqNoCreds : Request := ⟨[], []⟩

/-- The `Authorization: Basic base64(u:p)` request. -/
def basicReq (u p : List Nat) : Request :=
  ⟨[(str "Authorization", str "Basic " ++ b64encode (u ++ 58 :: p))], []⟩

/-- A request carrying both a valid API key and valid Basic credentials
for `authApiKeyBasic` (under `hashId`). -/
def reqKeyAndBasic : Request :=
  ⟨[(str "x-api-key", str "k1"),
    (str "Authorization", str "Basic " ++ b64encode (str "admin:secret"))], []⟩

/-- Auth settings with only OIDC enabled and no configured `jwksUri`, so
the key set must be discovered on first request. -/
def authOidcLazy : AuthSettings :=
  ⟨true, [str "oidc"], none,
   some ⟨str "https://iss", str "client", none, none, none⟩, none⟩

/-- A request carrying only a bearer token. -/
def reqBearer : Request := ⟨[(str "Authorization", str "Bearer tok")], []⟩

/-- A request whose `x-api-key` header is present but empty, and whose
`api_key` query parameter carries the valid key `k1`. -/
def reqEmptyHeaderQueryKey : Request :=
  ⟨[(str "x-api-key", [])], [(str "api_key", str "k1")]⟩

/-- A request presenting the three-character API key `abc` via header. -/
def reqShortKey : Request := ⟨[(str "x-api-key", str "abc")], []⟩

/-- A full configuration that is accepted by `validateConfig` although its
only authentication method name, `bogus`, matches no verifier. -/
def cfgBogusMethod : ConfigM :=
  ⟨3000, ⟨str "magic", some (), none⟩,
   ⟨true, [str "bogus"], none, none, none⟩⟩

/-! ## Helper lemmas -/

theorem charToSextet_sextetToChar : ∀ n < 64, charToSextet (sextetToChar n) = some n := by
  decide

theorem sextetToChar_props (n : Nat) :
    sextetToChar n ≠ 61 ∧ isJsSpace (sextetToChar n) = false ∧
      isLineTerm (sextetToChar n) = false := by
  rcases Nat.lt_or_ge n 64 with h | h
  · exact (by decide :
      ∀ m < 64, sextetToChar m ≠ 61 ∧ isJsSpace (sextetToChar m) = false ∧
        isLineTerm (sextetToChar m) = false) n h
  · have hlen : b64chars.length = 64 := by decide
    have : sextetToChar n = 65 := by
      unfold sextetToChar
      exact List.getD_eq_default _ _ (by omega)
    rw [this]
    decide

theorem b64encode_no_space : ∀ (bs : List Nat), ∀ c ∈ b64encode bs,
    isJsSpace c = false ∧ isLineTerm c = false
  | [] => by simp [b64encode]
  | [a] => by
      intro c hc
      simp only [b64encode, List.mem_cons, List.not_mem_nil, or_false] at hc
      rcases hc with rfl | rfl | rfl | rfl
      · exact (sextetToChar_props _).2
      · exact (sextetToChar_props _).2
      · exact ⟨by decide, by decide⟩
      · exact ⟨by decide, by decide⟩
  | [a, b] => by
      intro c hc
      simp only [b64encode, List.mem_cons, List.not_mem_nil, or_false] at hc
      rcases hc with rfl | rfl | rfl | rfl
      · exact (sextetToChar_props _).2
      · exact (sextetToChar_props _).2
      · exact (sextetToChar_props _).2
      · exact ⟨by decide, by decide⟩
  | a :: b :: c :: rest => by
      intro x hx
      simp only [b64encode, List.mem_cons] at hx
      rcases hx with rfl | rfl | rfl | rfl | hx
      · exact (sextetToChar_props _).2
      · exact (sextetToChar_props _).2
      · exact (sextetToChar_props _).2
      · exact (sextetToChar_props _).2
      · exact b64encode_no_space rest x hx

theorem b64encode_ne_nil : ∀ (bs : List Nat), bs ≠ [] → b64encode bs ≠ []
  | [], h => absurd rfl h
  | [_], _ => by simp [b64encode]
  | [_, _], _ => by simp [b64encode]
  | _ :: _ :: _ :: _, _ => by simp [b64encode]

theorem b64_roundtrip : ∀ (bs : List Nat), (∀ x ∈ bs, x < 256) →
    b64decode (b64encode bs) = some bs
  | [], _ => rfl
  | [a], h => by
      have ha : a < 256 := h a (by simp)
      have h1 := charToSextet_sextetToChar (a / 4) (by omega)
      have h2 := charToSextet_sextetToChar (a % 4 * 16) (by omega)
      simp only [b64encode, b64decode, h1, h2]
      rw [if_pos (by simp)]
      simp only [Option.some.injEq, List.cons.injEq, and_true]
      omega
  | [a, b], h => by
      have ha : a < 256 := h a (by simp)
      have hb : b < 256 := h b (by simp)
      have h1 := charToSextet_sextetToChar (a / 4) (by omega)
      have h2 := charToSextet_sextetToChar (a % 4 * 16 + b / 16) (by omega)
      have h3 := charToSextet_sextetToChar (b % 16 * 4) (by omega)
      simp only [b64encode, b64decode, h1, h2, h3]
      rw [if_neg (fun hh => (sextetToChar_props (b % 16 * 4)).1 hh.1),
        if_pos (by simp)]
      simp only [Option.some.injEq, List.cons.injEq, and_true]
      constructor <;> omega
  | a :: b :: c :: rest, h => by
      have ha : a < 256 := h a (by simp)
      have hb : b < 256 := h b (by simp)
      have hc : c < 256 := h c (by simp)
      have ih := b64_roundtrip rest (fun x hx => h x (by simp [hx]))
      have h1 := charToSextet_sextetToChar (a / 4) (by omega)
      have h2 := charToSextet_sextetToChar (a % 4 * 16 + b / 16) (by omega)
      have h3 := charToSextet_sextetToChar (b % 16 * 4 + c / 64) (by omega)
      have h4 := charToSextet_sextetToChar (c % 64) (by omega)
      simp only [b64encode, b64decode, h1, h2, h3, h4, ih]
      rw [if_neg (fun hh => (sextetToChar_props (b % 16 * 4 + c / 64)).1 hh.1),
        if_neg (fun hh => (sextetToChar_props (c % 64)).1 hh.1)]
      simp only [Option.some.injEq, List.cons.injEq]
      refine ⟨by omega, by omega, by omega, trivial⟩

theorem takeWhile_eq_nil {p : Nat → Bool} :
    ∀ (l : List Nat), (∀ c ∈ l, p c = false) → l.takeWhile p = []
  | [], _ => rfl
  | c :: rest, h => by
      simp [List.takeWhile_cons, h c (by simp)]

theorem dropWhile_eq_self {p : Nat → Bool} :
    ∀ (l : List Nat), (∀ c ∈ l, p c = false) → l.dropWhile p = l
  | [], _ => rfl
  | c :: rest, h => by
      simp [List.dropWhile_cons, h c (by simp)]

theorem findIdx_58 (p : List Nat) :
    ∀ (u : List Nat) (i : Nat), 58 ∉ u →
      List.findIdx? (fun x => x == 58) (u ++ 58 :: p) i = some (i + u.length)
  | [], i, _ => by simp [List.findIdx?_cons]
  | a :: u, i, h => by
      have ha : (a == 58) = false := by
        simp only [List.mem_cons] at h
        simp only [beq_eq_false_iff_ne, ne_eq]
        exact fun hh => h (Or.inl hh.symm)
      have ih := findIdx_58 p u (i + 1) (fun hh => h (List.mem_cons_of_mem _ hh))
      simp only [List.cons_append, List.findIdx?_cons, ha, if_false, ih,
        List.length_cons]
      exact congrArg some (by omega)

theorem indexOf_58 (u p : List Nat) (h : 58 ∉ u) :
    (u ++ 58 :: p).indexOf? 58 = some u.length := by
  have := findIdx_58 p u 0 h
  simpa [List.indexOf?] using this

theorem basicCapture_encode (E : List Nat) (hne : E ≠ [])
    (hns : ∀ c ∈ E, isJsSpace c = false ∧ isLineTerm c = false) :
    basicCapture (32 :: E) = some E := by
  unfold basicCapture
  have htake : (32 :: E).takeWhile isJsSpace = [32] := by
    simp only [List.takeWhile_cons]
    rw [if_pos (by decide), takeWhile_eq_nil _ (fun c hcmem => (hns c hcmem).1)]
  have hdropw : (32 :: E).dropWhile isJsSpace = E := by
    simp only [List.dropWhile_cons]
    rw [if_pos (by decide), dropWhile_eq_self _ (fun c hcmem => (hns c hcmem).1)]
  rw [htake, hdropw]
  rw [if_neg (by simp)]
  rw [if_neg (by simp [List.isEmpty_eq_false.mpr hne])]
  rw [if_neg ?hlt]
  case hlt =>
    simp only [List.any_eq_true, not_exists, not_and]
    intro c hcmem
    simp [(hns c hcmem).2]

theorem parseBasicAuth_encode (u p : List Nat)
    (hu : ∀ x ∈ u, x < 256) (hp : ∀ x ∈ p, x < 256) (hc : 58 ∉ u) :
    parseBasicAuth (str "Basic " ++ b64encode (u ++ 58 :: p)) = some (u, p) := by
  have hbytes : ∀ x ∈ u ++ 58 :: p, x < 256 := by
    intro x hx
    simp only [List.mem_append, List.mem_cons] at hx
    rcases hx with hx | hx | hx
    · exact hu x hx
    · omega
    · exact hp x hx
  have hne : b64encode (u ++ 58 :: p) ≠ [] := b64encode_ne_nil _ (by simp)
  unfold parseBasicAuth
  rw [if_pos ?hcond]
  case hcond =>
    refine ⟨?_, rfl⟩
    have h6 : (str "Basic ").length = 6 := by decide
    simp only [List.length_append, h6]
    omega
  have hdrop : (str "Basic " ++ b64encode (u ++ 58 :: p)).drop 5 =
      32 :: b64encode (u ++ 58 :: p) := rfl
  rw [hdrop, basicCapture_encode _ hne (b64encode_no_space _)]
  simp only [b64_roundtrip _ hbytes, indexOf_58 u p hc, Option.some.injEq,
    Prod.mk.injEq]
  constructor
  · exact List.take_left u (58 :: p)
  · have h58 : u ++ 58 :: p = (u ++ [58]) ++ p := by simp
    rw [h58, show u.length + 1 = (u ++ [58]).length by simp]
    exact List.drop_left _ _

theorem createApiKeyAuth_header_hit (ks : List (List Nat)) (k : List Nat)
    (req : Request) (hhdr : getHeader req (str "x-api-key") = some k)
    (hk : k ≠ []) (hmem : k ∈ ks) :
    createApiKeyAuth ⟨ks, none, none⟩ req =
      .ok ⟨.apiKey, some (apiKeyPrincipal k), none⟩ := by
  unfold createApiKeyAuth
  simp [jsOrStr, jsTruthy, hhdr, List.isEmpty_eq_false.mpr hk, hmem]

/-- C1 counterexample: with `methods = [oidc, api-key]` and a request
carrying both a valid API key and a bearer token the world's verifier
accepts, the recorded method is `api-key` — the verifier order is the
fixed registration order of `createAuthMiddleware`, not the configured
list order, so the method earlier in the configured list (`oidc`) is not
the one honored. -/
theorem auth_config_order_not_honored :
    authOidcFirst.methods = [str "oidc", str "api-key"] ∧
    worldAcceptTok.verify (str "https://iss/jwks") (str "https://iss") none
      (str "tok") = some ⟨some (str "alice"), none, none⟩ ∧
    apiGate worldAcceptTok hashId authOidcFirst reqBothCreds downOk =
      ⟨.ok (), some ⟨.apiKey, some (apiKeyPrincipal (str "secretkey123")), none⟩,
       [], 1, 1⟩ := by
  exact ⟨by decide, by decide, by decide⟩

/-- C1 (amended): whenever api-key and oidc are both among the configured
methods (in either order) and fully configured, and the request carries a
non-empty `x-api-key` header whose value is in the key list, the API-key
verifier is the one that runs first and succeeds: the context records
method `api-key`, no error is collected, exactly one verifier is invoked
(the OIDC verifier is never consulted) and the downstream chain is
dispatched once.  First-match-wins holds, but the try-order is the fixed
api-key, oidc, basic order of `createAuthMiddleware`, independent of the
order of `config.auth.methods`. -/
theorem auth_fixed_order_first_match (w : OidcWorld)
    (hashPassword : List Nat → List Nat) (auth : AuthSettings)
    (req : Request) (down : Nat → Res Unit) (k : List Nat)
    (ks : List (List Nat)) (ocfg : OIDCConfig)
    (hen : auth.enabled = true)
    (hkeys : auth.apiKeys = some ks) (hks : 0 < ks.length)
    (hak : str "api-key" ∈ auth.methods)
    (hoidc : str "oidc" ∈ auth.methods)
    (hcfg : auth.oidc = some ocfg)
    (hhdr : getHeader req (str "x-api-key") = some k) (hk : k ≠ [])
    (hmem : k ∈ ks)
    (hdown : down 0 = .ok ()) :
    apiGate w hashPassword auth req down =
      ⟨.ok (), some ⟨.apiKey, some (apiKeyPrincipal k), none⟩, [], 1, 1⟩ := by
  unfold apiGate createAuthMiddleware buildMiddlewares
  simp only [hen, hkeys, hcfg, eq_true hak, eq_true hks, eq_true hoidc,
    and_self, if_true, Bool.not_true, Bool.false_eq_true, if_false,
    List.cons_append, List.isEmpty_cons]
  unfold composeAuthMiddleware
  simp only [composeLoop, createApiKeyAuth_header_hit ks k req hhdr hk hmem,
    hdown]

/-- C1 witness: the amended theorem applied at a concrete configuration in
which oidc precedes api-key in the configured list. -/
theorem auth_fixed_order_first_match_witness :
    apiGate worldAcceptTok hashId authOidcFirst reqBothCreds downOk =
      ⟨.ok (), some ⟨.apiKey, some (apiKeyPrincipal (str "secretkey123")), none⟩,
       [], 1, 1⟩ :=
  auth_fixed_order_first_match worldAcceptTok hashId authOidcFirst
    reqBothCreds downOk (str "secretkey123") [str "secretkey123"]
    ⟨str "https://iss", str "client", none, none, some (str "https://iss/jwks")⟩
    rfl rfl (by decide) (by decide) (by decide) rfl (by decide) (by decide)
    (by decide) rfl

theorem createApiKeyAuth_no_credential (ks : List (List Nat)) (req : Request)
    (hh : getHeader req (str "x-api-key") = none)
    (hq : getQuery req (str "api_key") = none) :
    createApiKeyAuth ⟨ks, none, none⟩ req =
      .err (.authenticationError
        (str "API key is required. Provide it via header or query parameter.")) := by
  unfold createApiKeyAuth
  simp [jsOrStr, jsTruthy, hh, hq]

theorem createBasicAuth_no_header (hashPassword : List Nat → List Nat)
    (bcfg : BasicAuthConfig) (req : Request)
    (ha : getHeader req (str "Authorization") = none) :
    createBasicAuth hashPassword bcfg req =
      .err (.authenticationError (str "Basic authentication required")) := by
  unfold createBasicAuth
  simp [jsTruthy, ha]

/-- C2 counterexample: with api-key and basic enabled and a request
carrying no credential of either kind, both verifiers find nothing, yet
the orchestrator records one error per verifier in its collected error
list — the errors array has two entries where the claim requires that
credential absence contribute none. -/
theorem absence_contributes_errors :
    (apiGate worldAcceptTok hashId authApiKeyBasic reqNoCreds downOk).errors =
      [.authenticationError
        (str "API key is required. Provide it via header or query parameter."),
       .authenticationError (str "Basic authentication required")] ∧
    (apiGate worldAcceptTok hashId authApiKeyBasic reqNoCreds downOk).invoked = 2 := by
  exact ⟨by decide, by decide⟩

/-- C2 (amended): a verifier that finds no credential of its kind throws
an `AuthenticationError` exactly as a failed verification does; the
orchestrator catches it, appends it to the collected error list, and moves
on to the next verifier.  Absence of a credential is not distinguished
from a verification failure: with api-key and basic configured and a
request carrying neither an `x-api-key` header, an `api_key` query
parameter, nor an `Authorization` header, both verifiers are invoked, the
error list gains one entry per verifier, the downstream chain is never
dispatched, and the terminal aggregate failure is raised. -/
theorem absence_recorded_like_failure (w : OidcWorld)
    (hashPassword : List Nat → List Nat) (auth : AuthSettings)
    (req : Request) (down : Nat → Res Unit) (ks : List (List Nat))
    (bcfg : BasicAuthConfig)
    (hen : auth.enabled = true)
    (hkeys : auth.apiKeys = some ks) (hks : 0 < ks.length)
    (hak : str "api-key" ∈ auth.methods)
    (hbasic : str "basic" ∈ auth.methods)
    (hoidc : auth.oidc = none)
    (hb : auth.basicAuth = some bcfg)
    (hh : getHeader req (str "x-api-key") = none)
    (hq : getQuery req (str "api_key") = none)
    (ha : getHeader req (str "Authorization") = none) :
    apiGate w hashPassword auth req down =
      ⟨.err (aggregateError auth.methods), none,
       [.authenticationError
          (str "API key is required. Provide it via header or query parameter."),
        .authenticationError (str "Basic authentication required")], 2, 0⟩ := by
  unfold apiGate createAuthMiddleware buildMiddlewares
  simp only [hen, hkeys, hoidc, hb, eq_true hak, eq_true hks, eq_true hbasic,
    and_self, if_true, ite_self, Bool.not_true, Bool.false_eq_true, if_false,
    List.nil_append, List.cons_append, List.isEmpty_cons]
  unfold composeAuthMiddleware
  simp only [composeLoop, createApiKeyAuth_no_credential ks req hh hq,
    createBasicAuth_no_header hashPassword bcfg req ha, List.nil_append,
    List.cons_append]

/-- C2 witness for the amended theorem, at the concrete api-key + basic
configuration and the empty request. -/
theorem absence_recorded_like_failure_witness :
    apiGate worldAcceptTok hashId authApiKeyBasic reqNoCreds downOk =
      ⟨.err (aggregateError authApiKeyBasic.methods), none,
       [.authenticationError
          (str "API key is required. Provide it via header or query parameter."),
        .authenticationError (str "Basic authentication required")], 2, 0⟩ :=
  absence_recorded_like_failure worldAcceptTok hashId authApiKeyBasic
    reqNoCreds downOk [str "k1"] ⟨[(str "admin", str "secret")]⟩
    rfl rfl (by decide) (by decide) (by decide) rfl rfl rfl rfl rfl

/-- C3 (code bug): the real downstream `next()` is dispatched inside the
orchestrator's `try`, so when the downstream handler throws after the
API-key verifier succeeded, the error is recorded as an authentication
error and the loop carries on: the Basic verifier also succeeds and the
downstream chain is dispatched a second time (`nextCalls = 2`), under a
different auth context — the invariant of one outcome and at most one
downstream dispatch per request is violated by the code. -/
theorem downstream_double_dispatch :
    apiGate worldAcceptTok hashId authApiKeyBasic reqKeyAndBasic downFailsOnce =
      ⟨.ok (), some ⟨.basic, some (str "admin"), none⟩,
       [.genericError (str "boom")], 2, 2⟩ := by
  decide

/-- C4 (code bug): with OIDC enabled, no configured `jwksUri`, and a
discovery fetch that fails with a network error, the request with a
bearer token does not surface a 5xx-class configuration failure past the
orchestrator: the plain discovery error is wrapped by the OIDC middleware
into `AuthenticationError('Authentication failed')`, the orchestrator
catches and aggregates it, and the terminal outcome is the 401-class
aggregate `AuthenticationError` — `errorStatus` maps every error involved
to 401, not 5xx. -/
theorem discovery_failure_rendered_as_401 :
    apiGate worldNetDown hashId authOidcLazy reqBearer downOk =
      ⟨.err (aggregateError [str "oidc"]), none,
       [.authenticationError (str "Authentication failed")], 1, 0⟩ ∧
    errorStatus (aggregateError [str "oidc"]) = 401 ∧
    errorStatus (.authenticationError (str "Authentication failed")) = 401 := by
  exact ⟨by decide, rfl, rfl⟩

theorem createBasicAuth_basicReq (hashPassword : List Nat → List Nat)
    (users : List (List Nat × List Nat)) (u p : List Nat)
    (hu : ∀ x ∈ u, x < 256) (hp : ∀ x ∈ p, x < 256) (hc : 58 ∉ u) :
    createBasicAuth hashPassword ⟨users⟩ (basicReq u p) =
      (if !jsTruthy (users.lookup u) then
        .err (.authenticationError (str "Invalid username or password"))
      else if hashPassword p = (users.lookup u).getD [] then
        .ok ⟨.basic, some u, none⟩
      else
        .err (.authenticationError (str "Invalid username or password"))) := by
  unfold createBasicAuth
  rw [show getHeader (basicReq u p) (str "Authorization") =
      some (str "Basic " ++ b64encode (u ++ 58 :: p)) from rfl]
  rw [show jsTruthy (some (str "Basic " ++ b64encode (u ++ 58 :: p))) = true by
    simp [jsTruthy, str]]
  rw [show (some (str "Basic " ++ b64encode (u ++ 58 :: p))).getD [] =
      str "Basic " ++ b64encode (u ++ 58 :: p) from rfl]
  rw [parseBasicAuth_encode u p hu hp hc]
  simp

/-- C5: for every digest function, credential store, unknown username
`u1` (with any password `p1`), and known username `u2` with a non-matching
password `p2`, the Basic middleware throws the identical error — same
constructor (`AuthenticationError`) and same message (`Invalid username or
password`) — so the caller cannot distinguish an unknown user from a wrong
password. -/
theorem basic_auth_anti_enumeration (hashPassword : List Nat → List Nat)
    (users : List (List Nat × List Nat)) (u1 p1 u2 p2 h2 : List Nat)
    (hu1 : ∀ x ∈ u1, x < 256) (hp1 : ∀ x ∈ p1, x < 256) (hc1 : 58 ∉ u1)
    (hu2 : ∀ x ∈ u2, x < 256) (hp2 : ∀ x ∈ p2, x < 256) (hc2 : 58 ∉ u2)
    (habsent : users.lookup u1 = none)
    (hpresent : users.lookup u2 = some h2) (hh2 : h2 ≠ [])
    (hwrong : hashPassword p2 ≠ h2) :
    createBasicAuth hashPassword ⟨users⟩ (basicReq u1 p1) =
      .err (.authenticationError (str "Invalid username or password")) ∧
    createBasicAuth hashPassword ⟨users⟩ (basicReq u2 p2) =
      .err (.authenticationError (str "Invalid username or password")) := by
  constructor
  · rw [createBasicAuth_basicReq hashPassword users u1 p1 hu1 hp1 hc1]
    simp [habsent, jsTruthy]
  · rw [createBasicAuth_basicReq hashPassword users u2 p2 hu2 hp2 hc2]
    simp [hpresent, jsTruthy, List.isEmpty_eq_false.mpr hh2, hwrong]

/-- C5 witness: concrete store with one user `admin`; an unknown user and
a wrong password produce the identical error value. -/
theorem basic_auth_anti_enumeration_witness :
    createBasicAuth hashId ⟨[(str "admin", str "secret")]⟩
        (basicReq (str "ghost") (str "pw")) =
      .err (.authenticationError (str "Invalid username or password")) ∧
    createBasicAuth hashId ⟨[(str "admin", str "secret")]⟩
        (basicReq (str "admin") (str "wrong")) =
      .err (.authenticationError (str "Invalid username or password")) :=
  basic_auth_anti_enumeration hashId [(str "admin", str "secret")]
    (str "ghost") (str "pw") (str "admin") (str "wrong") (str "secret")
    (by decide) (by decide) (by decide) (by decide) (by decide) (by decide)
    (by decide) (by decide) (by decide) (by decide)

/-- C6: for every digest function (standing for the SHA-256 hex digest of
the UTF-8 password bytes), whenever the store maps `u` to the digest of
`p` (a hex digest is never empty, whence the non-emptiness hypothesis),
the request with header `Authorization: Basic base64(u:p)` authenticates
with method `basic` and principal `u`; the decoded payload is split at its
first `:` — `u` is colon-free as Basic usernames must be, while `p` may
itself contain `:` and is preserved intact. -/
theorem basic_auth_success (hashPassword : List Nat → List Nat)
    (users : List (List Nat × List Nat)) (u p : List Nat)
    (hu : ∀ x ∈ u, x < 256) (hp : ∀ x ∈ p, x < 256) (hc : 58 ∉ u)
    (hlookup : users.lookup u = some (hashPassword p))
    (hne : hashPassword p ≠ []) :
    createBasicAuth hashPassword ⟨users⟩ (basicReq u p) =
      .ok ⟨.basic, some u, none⟩ := by
  rw [createBasicAuth_basicReq hashPassword users u p hu hp hc]
  simp [hlookup, jsTruthy, List.isEmpty_eq_false.mpr hne]

/-- C6 witness: store maps `admin` to the digest of the colon-containing
password `se:cret`; authentication succeeds with principal `admin`. -/
theorem basic_auth_success_witness :
    createBasicAuth hashId ⟨[(str "admin", str "se:cret")]⟩
        (basicReq (str "admin") (str "se:cret")) =
      .ok ⟨.basic, some (str "admin"), none⟩ :=
  basic_auth_success hashId [(str "admin", str "se:cret")]
    (str "admin") (str "se:cret") (by decide) (by decide) (by decide)
    (by decide) (by decide)

/-- C7 counterexample: a request whose `x-api-key` header is present but
empty and whose `api_key` query parameter carries a registered key
authenticates via the query parameter — the header is present, yet the
query is consulted, because the source tests JS falsiness (`!apiKey`),
not absence. -/
theorem query_used_despite_header_present :
    getHeader reqEmptyHeaderQueryKey (str "x-api-key") = some [] ∧
    createApiKeyAuth ⟨[str "k1"], none, none⟩ reqEmptyHeaderQueryKey =
      .ok ⟨.apiKey, some (apiKeyPrincipal (str "k1")), none⟩ :=
  ⟨rfl, by decide⟩

/-- C7 (amended): with the default header and query names, (1) a
non-empty `x-api-key` header is the candidate — the query parameter is
ignored — and authentication succeeds iff the candidate is in the key
set; (2) when the header is absent **or empty** (JS falsiness), a
non-empty `api_key` query value is the candidate, succeeding iff it is in
the key set; (3) when both are absent or empty the middleware throws the
missing-key error. -/
theorem apikey_header_precedence (ks : List (List Nat)) (req : Request) :
    (∀ h, getHeader req (str "x-api-key") = some h → h ≠ [] →
      createApiKeyAuth ⟨ks, none, none⟩ req =
        (if h ∈ ks then .ok ⟨.apiKey, some (apiKeyPrincipal h), none⟩
         else .err (.authenticationError (str "Invalid API key")))) ∧
    (jsTruthy (getHeader req (str "x-api-key")) = false →
      ∀ q, getQuery req (str "api_key") = some q → q ≠ [] →
      createApiKeyAuth ⟨ks, none, none⟩ req =
        (if q ∈ ks then .ok ⟨.apiKey, some (apiKeyPrincipal q), none⟩
         else .err (.authenticationError (str "Invalid API key")))) ∧
    (jsTruthy (getHeader req (str "x-api-key")) = false →
      jsTruthy (getQuery req (str "api_key")) = false →
      createApiKeyAuth ⟨ks, none, none⟩ req =
        .err (.authenticationError
          (str "API key is required. Provide it via header or query parameter."))) := by
  refine ⟨?_, ?_, ?_⟩
  · intro h hhdr hne
    unfold createApiKeyAuth
    simp [jsOrStr, jsTruthy, hhdr, List.isEmpty_eq_false.mpr hne]
  · intro hfalsy q hq hne
    have hq2 : jsTruthy (some q) = true := by
      simp [jsTruthy, List.isEmpty_eq_false.mpr hne]
    have htn : jsTruthy (none : Option (List Nat)) = false := rfl
    unfold createApiKeyAuth
    simp only [jsOrStr, htn, Bool.false_eq_true, if_false, hfalsy, hq, hq2,
      if_true, Bool.not_true, Option.getD_some]
  · intro hfalsy hqfalsy
    have htn : jsTruthy (none : Option (List Nat)) = false := rfl
    unfold createApiKeyAuth
    simp only [jsOrStr, htn, Bool.false_eq_true, if_false, hfalsy, hqfalsy,
      Bool.not_false, if_true]

/-- C7 witness: the amended theorem applied to a request with a non-empty
registered header key (first part: header wins and succeeds). -/
theorem apikey_header_precedence_witness :
    createApiKeyAuth ⟨[str "secretkey123"], none, none⟩ reqBothCreds =
      .ok ⟨.apiKey, some (apiKeyPrincipal (str "secretkey123")), none⟩ :=
  ((apikey_header_precedence [str "secretkey123"] reqBothCreds).1
    (str "secretkey123") rfl (by decide)).trans (by decide)

/-- C8 counterexample: the registered three-character key `abc`, presented
via header, authenticates with principal `api-key-abc...` — that is,
`"api-key-" ++ "abc" ++ "..."`: the whole secret appears verbatim inside
the principal, refuting that the principal never exposes the full key. -/
theorem apikey_principal_exposes_short_key :
    createApiKeyAuth ⟨[str "abc"], none, none⟩ reqShortKey =
      .ok ⟨.apiKey, some (str "api-key-" ++ str "abc" ++ str "..."), none⟩ := by
  decide

/-- C8 (amended): a successful API-key authentication with key `k` records
the principal `"api-key-" + k.substring(0, 8) + "..."`; the principal
depends only on the first eight bytes of the key (so keys longer than
eight bytes are not recoverable in full from it), but a key of length at
most eight appears in the principal in its entirety. -/
theorem apikey_principal_masks_only_tail (ks : List (List Nat)) (req : Request)
    (k : List Nat) (hhdr : getHeader req (str "x-api-key") = some k)
    (hk : k ≠ []) (hmem : k ∈ ks) :
    createApiKeyAuth ⟨ks, none, none⟩ req =
      .ok ⟨.apiKey, some (apiKeyPrincipal k), none⟩ ∧
    apiKeyPrincipal k = str "api-key-" ++ k.take 8 ++ str "..." ∧
    (∀ k2 : List Nat, k2.take 8 = k.take 8 →
      apiKeyPrincipal k2 = apiKeyPrincipal k) ∧
    (k.length ≤ 8 → apiKeyPrincipal k = str "api-key-" ++ k ++ str "...") := by
  refine ⟨createApiKeyAuth_header_hit ks k req hhdr hk hmem, rfl, ?_, ?_⟩
  · intro k2 hk2
    unfold apiKeyPrincipal
    rw [hk2]
  · intro hlen
    unfold apiKeyPrincipal
    rw [List.take_of_length_le hlen]

/-- C8 witness: the amended theorem at the short key `abc` — format and
full exposure of the short key. -/
theorem apikey_principal_masks_only_tail_witness :
    createApiKeyAuth ⟨[str "abc"], none, none⟩ reqShortKey =
      .ok ⟨.apiKey, some (apiKeyPrincipal (str "abc")), none⟩ ∧
    apiKeyPrincipal (str "abc") = str "api-key-" ++ str "abc" ++ str "..." :=
  ⟨(apikey_principal_masks_only_tail [str "abc"] reqShortKey (str "abc")
      rfl (by decide) (by decide)).1,
   (apikey_principal_masks_only_tail [str "abc"] reqShortKey (str "abc")
      rfl (by decide) (by decide)).2.2.2 (by decide)⟩

/-- C10: any configuration accepted by `validateConfig` whose auth is
enabled but whose method names include none of `api-key`, `oidc`, `basic`
yields `createAuthMiddleware = none`: no auth middleware is installed on
the `/api/*` routes, every request runs the downstream chain exactly once
with no auth context attached. -/
theorem auth_noop_when_methods_unrecognized (w : OidcWorld)
    (hashPassword : List Nat → List Nat) (c : ConfigM)
    (hacc : validateConfig c = [])
    (hen : c.auth.enabled = true)
    (hnm : ∀ m ∈ c.auth.methods,
      m ≠ str "api-key" ∧ m ≠ str "oidc" ∧ m ≠ str "basic") :
    createAuthMiddleware w hashPassword c.auth = none ∧
    ∀ req down, apiGate w hashPassword c.auth req down =
      (match down 0 with
       | .ok _ => ⟨.ok (), none, [], 0, 1⟩
       | .err e => ⟨.err e, none, [], 0, 1⟩) := by
  have hak : str "api-key" ∉ c.auth.methods := fun hmem => (hnm _ hmem).1 rfl
  have hoi : str "oidc" ∉ c.auth.methods := fun hmem => (hnm _ hmem).2.1 rfl
  have hba : str "basic" ∉ c.auth.methods := fun hmem => (hnm _ hmem).2.2 rfl
  have hnone : createAuthMiddleware w hashPassword c.auth = none := by
    unfold createAuthMiddleware buildMiddlewares
    simp [hen, hak, hoi, hba]
  refine ⟨hnone, fun req down => ?_⟩
  unfold apiGate
  rw [hnone]

/-- C10 witness: the concrete configuration `cfgBogusMethod` (auth
enabled, `methods = ["bogus"]`) passes validation, produces no auth
middleware, and lets a request through with no auth context. -/
theorem auth_noop_when_methods_unrecognized_witness :
    validateConfig cfgBogusMethod = [] ∧
    createAuthMiddleware worldAcceptTok hashId cfgBogusMethod.auth = none ∧
    apiGate worldAcceptTok hashId cfgBogusMethod.auth reqNoCreds downOk =
      ⟨.ok (), none, [], 0, 1⟩ :=
  ⟨by decide,
   (auth_noop_when_methods_unrecognized worldAcceptTok hashId cfgBogusMethod
      (by decide) rfl (by decide)).1,
   (auth_noop_when_methods_unrecognized worldAcceptTok hashId cfgBogusMethod
      (by decide) rfl (by decide)).2 reqNoCreds downOk⟩

/-- C9 counterexample: two requests race on an issuer with nothing
cached; the schedule in which both run their cache check before either
fetch completes issues two outbound discovery fetches, not one. -/
theorem discovery_race_two_fetches :
    runSchedule (raceInit 2) [0, 1, 0, 1] =
      ⟨true, 2, [.done, .done]⟩ := by
  decide

set_option maxRecDepth 8192 in
/-- C9 (amended): the code has no single-flighting: every request that
runs the `if (!this.jwks)` check while the cache is still unset issues its
own discovery fetch.  In particular fifty simultaneous first-time
requests, all reaching the check before any response arrives, perform
fifty outbound fetches — one per request — rather than one in total. -/
theorem discovery_race_no_single_flight :
    (runSchedule (raceInit 50) (List.range 50)).fetches = 50 := by
  decide
